import Mathlib

/-!
Verification of the embedded-ui-proxy core: a shallow embedding of its
JSON-RPC 2.0 dispatcher (`jsonrpc.py`), reverse-proxy forwarder
(`proxy.py`), resource sampler and storage handle (`monitor.py`), and the
registered `query` method (`main.py`), with theorems checking the
specification's claims about them.
-/

/-- JSON values, as produced by parsing a request body (`request.json()`).
Objects are finite maps from string keys to values, modelled as association
lists; a parsed Python dict has unique keys, and every key access below goes
through `List.lookup` (first match), so theorems quantifying over arbitrary
field lists subsume the unique-key case.  JSON `null` parses to Python
`None`, which is represented by `Json.null`.  Numbers are modelled as
rationals (covering JSON integers and decimal floats). -/
inductive Json where
  | null
  | bool (b : Bool)
  | num (n : Rat)
  | str (s : String)
  | arr (elems : List Json)
  | obj (fields : List (String × Json))

/-- Python `data.get(key)` on a parsed JSON object: returns `none` both when
the key is absent and when its value is JSON `null` (which parses to Python
`None`).  Used for the `params` access in `_handle_single_request`. -/
def pyGet (fields : List (String × Json)) (key : String) : Option Json :=
  match List.lookup key fields with
  | some Json.null => none
  | o => o

/-- The value echoed back as the response `id`: Python
`request_id = data.get("id")`, where a missing key yields `None`, which
serializes as JSON `null`. -/
def requestIdOf (fields : List (String × Json)) : Json :=
  (List.lookup "id" fields).getD Json.null

/-- Python `"id" in data`: key presence (a present `null` id still counts). -/
def hasIdKey (fields : List (String × Json)) : Bool :=
  (List.lookup "id" fields).isSome

/-- The guard `params is not None and not isinstance(params, (dict, list))`
from `_handle_single_request` (with `params = data.get("params")`). -/
def paramsInvalid : Option Json → Bool
  | some (Json.obj _) => false
  | some (Json.arr _) => false
  | some _ => true
  | none => false

/-- `JSONRPCHandler._error_dict`: the JSON-RPC error response object. -/
def error_dict (request_id : Json) (code : Int) (message : String) : Json :=
  Json.obj
    [("jsonrpc", Json.str "2.0"),
     ("error", Json.obj [("code", Json.num code), ("message", Json.str message)]),
     ("id", request_id)]

/-- The JSON-RPC success response object built in `_handle_single_request`:
`{"jsonrpc": "2.0", "result": result, "id": request_id}`. -/
def result_dict (result : Json) (request_id : Json) : Json :=
  Json.obj [("jsonrpc", Json.str "2.0"), ("result", result), ("id", request_id)]

/-- Outcome of invoking a registered method handler: normal return,
raising `InvalidParamsError`, or raising any other exception (the latter
two carry `str(e)`). -/
inductive HandlerOutcome where
  | ok (result : Json)
  | invalidParams (msg : String)
  | fail (msg : String)

/-- A registered method handler (`MethodHandler`): receives the request's
`params` (Python `None` when absent or JSON-null) and produces one of the
three outcomes. -/
abbrev Handler : Type := Option Json → HandlerOutcome

/-- The handler registry `self.methods`, a dict from method name to handler. -/
abbrev Registry : Type := List (String × Handler)

/-- `JSONRPCHandler._handle_single_request`: validates one parsed request
value and dispatches it, returning the response object, or `none` for a
notification that reached handler invocation (the code returns error
responses from the validation steps without consulting `"id" in data`). -/
def handle_single_request (methods : Registry) (data : Json) : Option Json :=
  match data with
  | Json.obj fields =>
    let request_id := requestIdOf fields
    match List.lookup "jsonrpc" fields with
    | some (Json.str "2.0") =>
      match List.lookup "method" fields with
      | some (Json.str m) =>
        match List.lookup m methods with
        | some handler =>
          let params := pyGet fields "params"
          if paramsInvalid params then
            some (error_dict request_id (-32602) "Invalid params")
          else
            match handler params with
            | HandlerOutcome.ok result =>
              if hasIdKey fields then some (result_dict result request_id) else none
            | HandlerOutcome.invalidParams msg =>
              if hasIdKey fields then some (error_dict request_id (-32602) msg) else none
            | HandlerOutcome.fail msg =>
              if hasIdKey fields then some (error_dict request_id (-32603) msg) else none
        | none => some (error_dict request_id (-32601) "Method not found")
      | _ => some (error_dict request_id (-32600) "Invalid Request")
    | _ => some (error_dict request_id (-32600) "Invalid Request")
  | _ => some (error_dict Json.null (-32600) "Invalid Request")

/-- The HTTP-level result of `handle_rpc`: either `web.Response(status=204)`
(no content, all-notifications case) or a JSON body. -/
inductive RpcHttp where
  | noContent
  | json (v : Json)

/-- The batch loop of `handle_rpc`: `responses = []; for req in data: ...
if response is not None: responses.append(response)`. -/
def collect_responses (methods : Registry) (data : List Json) : List Json :=
  data.foldl
    (fun responses req =>
      match handle_single_request methods req with
      | some response => responses ++ [response]
      | none => responses)
    []

/-- `JSONRPCHandler.handle_rpc`: the body is `none` when `request.json()`
raises `json.JSONDecodeError`, otherwise the parsed value. -/
def handle_rpc (methods : Registry) (body : Option Json) : RpcHttp :=
  match body with
  | none => RpcHttp.json (error_dict Json.null (-32700) "Parse error")
  | some data =>
    match data with
    | Json.arr elems =>
      if elems.length = 0 then
        RpcHttp.json (error_dict Json.null (-32600) "Invalid Request")
      else
        let responses := collect_responses methods elems
        if responses.length = 0 then
          RpcHttp.noContent
        else
          RpcHttp.json (Json.arr responses)
    | _ =>
      match handle_single_request methods data with
      | none => RpcHttp.noContent
      | some response => RpcHttp.json response

/-- Field access on a JSON object (used to state properties of responses). -/
def jsonField (v : Json) (key : String) : Option Json :=
  match v with
  | Json.obj fields => List.lookup key fields
  | _ => none

/-- The error code carried by a JSON-RPC response object, if it is an error
response. -/
def rpcErrorCode (v : Json) : Option Rat :=
  match jsonField v "error" with
  | some e =>
    match jsonField e "code" with
    | some (Json.num c) => some c
    | _ => none
  | none => none

/-- Whether a JSON value is an object (a single response, not a batch array). -/
def Json.isObj : Json → Bool
  | Json.obj _ => true
  | _ => false

/-! ## Reverse proxy (`proxy.py`) -/

/-- An inbound HTTP request as seen by `ProxyHandler.handle_proxy`:
`request.method`, `request.path_qs` (path plus query string), the header
multidict in iteration order, and the body (`none` when
`request.body_exists` is false). -/
structure HttpRequest where
  method : String
  path_qs : String
  headers : List (String × String)
  body : Option (List UInt8)

/-- An HTTP response: status, headers (in iteration order), body bytes. -/
structure HttpResponse where
  status : Nat
  headers : List (String × String)
  body : List UInt8

/-- The outbound request handed to `session.request(...)`. -/
structure OutboundRequest where
  method : String
  url : String
  headers : List (String × String)
  body : Option (List UInt8)
  allowRedirects : Bool

/-- Result of the single transport attempt `session.request(...)`:
either an upstream response, or a raised transport error
(`aiohttp.ClientError` or any other exception, both caught and carrying
`str(e)`). -/
inductive UpstreamResult where
  | resp (r : HttpResponse)
  | clientError (msg : String)

/-- The transport: how one outbound request is answered. -/
abbrev Transport : Type := OutboundRequest → UpstreamResult

/-- Python `s.rstrip("/")`: remove every trailing `/`. -/
def rstripSlash (s : String) : String :=
  String.mk ((s.data.reverse.dropWhile (fun c => c == '/')).reverse)

/-- `ProxyHandler.__init__`: stores `remote_url.rstrip("/")`. -/
def ProxyHandler.init (remote_url : String) : String :=
  rstripSlash remote_url

/-- One step of the Python dict comprehension: assigning `d[k] = v`
overwrites an existing binding for `k` (keeping its position) or appends a
new one. -/
def dictAssign (d : List (String × String)) (k v : String) : List (String × String) :=
  if d.any (fun p => p.1 == k) then
    d.map (fun p => if p.1 == k then (k, v) else p)
  else
    d ++ [(k, v)]

/-- Python `{k: v for k, v in items if keep (k, v)}`: a filtered dict
comprehension over a (multi)dict's items; a repeated key keeps only the
value of its last occurrence. -/
def dictComp (keep : String × String → Bool) (items : List (String × String)) :
    List (String × String) :=
  items.foldl (fun d kv => if keep kv then dictAssign d kv.1 kv.2 else d) []

/-- Python `k.lower()` on a header name (header names are ASCII, so
per-character lowering is the whole of `str.lower()` here). -/
def strLower (s : String) : String :=
  String.mk (s.data.map Char.toLower)

/-- The header filter of `handle_proxy`:
`k.lower() not in ("host", "content-length")`. -/
def keepRequestHeader (kv : String × String) : Bool :=
  !(strLower kv.1 == "host" || strLower kv.1 == "content-length")

/-- The response-header filter of `handle_proxy`:
`k.lower() not in ("content-encoding", "content-length", "transfer-encoding")`. -/
def keepResponseHeader (kv : String × String) : Bool :=
  !(strLower kv.1 == "content-encoding" || strLower kv.1 == "content-length" ||
    strLower kv.1 == "transfer-encoding")

/-- The outbound request built inside `handle_proxy`: target URL is
`f"{self.remote_url}{request.path_qs}"`, headers are the filtered dict
comprehension, method and body pass through, `allow_redirects=False`. -/
def make_outbound (remote_url : String) (req : HttpRequest) : OutboundRequest :=
  { method := req.method
    url := remote_url ++ req.path_qs
    headers := dictComp keepRequestHeader req.headers
    body := req.body
    allowRedirects := false }

/-- The bytes of the plain-text body `f"Proxy error: {str(e)}"`. -/
def textBytes (s : String) : List UInt8 :=
  s.toUTF8.toList

/-- `ProxyHandler.handle_proxy`: performs the one transport attempt on the
built outbound request; on an upstream response, relays status and body and
the filtered headers; on any raised transport error, synthesizes a 502
response with a plain-text body. -/
def handle_proxy (remote_url : String) (send : Transport) (req : HttpRequest) :
    HttpResponse :=
  match send (make_outbound remote_url req) with
  | UpstreamResult.resp r =>
    { status := r.status
      headers := dictComp keepResponseHeader r.headers
      body := r.body }
  | UpstreamResult.clientError msg =>
    { status := 502, headers := [], body := textBytes ("Proxy error: " ++ msg) }

/-! ## Storage handle and resource sampler (`monitor.py`) -/

/-- A Python `datetime` value (as produced by `datetime.now()` and as stored
in the `TIMESTAMP` column). -/
structure DateTime where
  year : Nat
  month : Nat
  day : Nat
  hour : Nat
  minute : Nat
  second : Nat
  microsecond : Nat
  deriving DecidableEq

/-- Left-pad the decimal representation of `n` with zeros to width `w`. -/
def padNum (w : Nat) (n : Nat) : String :=
  let s := toString n
  String.mk (List.replicate (w - s.length) '0') ++ s

/-- Python `datetime.isoformat()`: `YYYY-MM-DDTHH:MM:SS` with a
`.ffffff` microsecond suffix when the microsecond field is nonzero. -/
def DateTime.isoformat (t : DateTime) : String :=
  padNum 4 t.year ++ "-" ++ padNum 2 t.month ++ "-" ++ padNum 2 t.day ++ "T" ++
    padNum 2 t.hour ++ ":" ++ padNum 2 t.minute ++ ":" ++ padNum 2 t.second ++
    (if t.microsecond = 0 then "" else "." ++ padNum 6 t.microsecond)

/-- A scalar cell of a query result row, before the dispatcher-side JSON
serialization: the engine hands back Python numbers, strings, booleans,
`None`, and `datetime` objects. -/
inductive Scalar where
  | num (n : Rat)
  | str (s : String)
  | bool (b : Bool)
  | null
  | ts (t : DateTime)

/-- The raw tabular result of the embedded engine:
`cursor.description` column names and `cursor.fetchall()` rows. -/
structure RawResult where
  columns : List String
  rows : List (List Scalar)

/-- The `system_metrics` table: one row per `insert_metrics` call, in
insertion order (the table is append-only; each insert commits on its own). -/
structure MetricRow where
  timestamp : DateTime
  cpu_percent : Rat
  memory_percent : Rat
  memory_mb : Rat

/-- The state of the storage handle's one connection: the contents of the
`system_metrics` table. -/
abbrev Store : Type := List MetricRow

/-- `DuckDBManager.insert_metrics`: appends one row
`(datetime.now(), cpu_percent, memory_percent, memory_mb)` and commits.
The sample time is passed explicitly in place of `datetime.now()`. -/
def insert_metrics (now : DateTime) (cpu_percent memory_percent memory_mb : Rat)
    (s : Store) : Store :=
  s ++ [⟨now, cpu_percent, memory_percent, memory_mb⟩]

/-- Engine contract for `SELECT * FROM system_metrics` (the embedded engine
is an external collaborator, consumed through its documented
execute/fetchall contract): the four declared columns, and one row per
stored row in insertion order, the timestamp cell as a temporal value. -/
def select_all_metrics (s : Store) : RawResult :=
  { columns := ["timestamp", "cpu_percent", "memory_percent", "memory_mb"]
    rows := s.map (fun r =>
      [Scalar.ts r.timestamp, Scalar.num r.cpu_percent,
       Scalar.num r.memory_percent, Scalar.num r.memory_mb]) }

/-- The per-cell conversion loop of `DuckDBManager.execute_query`:
`if isinstance(cell, datetime): cell.isoformat() else cell`. -/
def convert_cell : Scalar → Scalar
  | Scalar.ts t => Scalar.str t.isoformat
  | c => c

/-- JSON serialization of a result cell (`json.dumps` with `DecimalEncoder`:
numbers as JSON numbers, `datetime` as its isoformat string). -/
def scalarJson : Scalar → Json
  | Scalar.num n => Json.num n
  | Scalar.str s => Json.str s
  | Scalar.bool b => Json.bool b
  | Scalar.null => Json.null
  | Scalar.ts t => Json.str t.isoformat

/-- The `{"columns": ..., "rows": ...}` dict returned by
`DuckDBManager.execute_query`, as the JSON value it serializes to. -/
def queryResultJson (raw : RawResult) : Json :=
  Json.obj
    [("columns", Json.arr (raw.columns.map Json.str)),
     ("rows", Json.arr (raw.rows.map (fun row =>
       Json.arr (row.map (fun cell => scalarJson (convert_cell cell))))))]

/-- An abstract SQL engine: maps the value passed as the query (of any
Python type — `execute_query` never checks it is a string) to a raw result
or a raised engine error carrying `str(e)`. -/
abbrev Engine : Type := Json → Except String RawResult

/-- `DuckDBManager.execute_query`: runs the engine, converts temporal cells
to their isoformat text, and wraps any engine failure as
`ValueError(f"Query execution failed: {str(e)}")`. -/
def execute_query (engine : Engine) (query : Json) : Except String Json :=
  match engine query with
  | Except.ok raw => Except.ok (queryResultJson raw)
  | Except.error e => Except.error ("Query execution failed: " ++ e)

/-- Program counter of the `SystemMonitor.start_monitoring` loop:
about to test `while self.monitoring` (`cond`), about to run the loop body
(`body`: sample and `insert_metrics`), inside `await asyncio.sleep`
(`sleep`), or exited (`done`). -/
inductive MonPC where
  | cond
  | body
  | sleep
  | done
  deriving DecidableEq

/-- State of a `SystemMonitor` execution: the `self.monitoring` flag, the
loop position, and how many metric writes have been performed. -/
structure MonState where
  monitoring : Bool
  pc : MonPC
  writes : Nat
  deriving DecidableEq

/-- Events of a sampler execution: `tick` advances the loop by one step at
its current position; `stop` is `SystemMonitor.stop_monitoring` setting
`self.monitoring = False` (it can interleave anywhere, since the loop only
yields at I/O points). -/
inductive MonEv where
  | tick
  | stop
  deriving DecidableEq

/-- Small-step semantics of the sampler loop.  A `tick` at `body` performs
the iteration's metric write and moves to the sleep (a failing iteration
writes nothing but follows the same control path, so this is the
write-maximal behaviour); a `tick` at `cond` tests `self.monitoring`. -/
def monStep (s : MonState) : MonEv → MonState
  | MonEv.stop => { s with monitoring := false }
  | MonEv.tick =>
    match s.pc with
    | MonPC.cond =>
      if s.monitoring then { s with pc := MonPC.body } else { s with pc := MonPC.done }
    | MonPC.body => { s with pc := MonPC.sleep, writes := s.writes + 1 }
    | MonPC.sleep => { s with pc := MonPC.cond }
    | MonPC.done => s

/-- Run the sampler from a state through a sequence of events. -/
def monRun (s : MonState) (evs : List MonEv) : MonState :=
  evs.foldl monStep s

/-- How many writes the loop can still perform once `self.monitoring` is
false: one if an iteration body is already in progress, none otherwise. -/
def inFlightWrites : MonPC → Nat
  | MonPC.body => 1
  | _ => 0

/-! ## The registered `query` method (`main.py`) -/

/-- `query_method` from `create_app`: validates that `params` is a dict
containing the key `"sql"` (raising `InvalidParamsError` otherwise — note
it never checks that the value under `"sql"` is a string), then calls
`db_manager.execute_query(params["sql"])`; a `ValueError` raised there
propagates as an ordinary handler failure. -/
def query_method (engine : Engine) : Handler := fun params =>
  match params with
  | some (Json.obj fields) =>
    match List.lookup "sql" fields with
    | some sqlVal =>
      match execute_query engine sqlVal with
      | Except.ok result => HandlerOutcome.ok result
      | Except.error e => HandlerOutcome.fail e
    | none => HandlerOutcome.invalidParams "Invalid params: 'sql' parameter is required"
  | _ => HandlerOutcome.invalidParams "Invalid params: 'sql' parameter is required"

/-! ## Theorems -/

/-- C1 counterexample: a request with no `id` key whose method is not in the
registry (a validation failure on a notification).  The dispatcher *does*
produce a response object — the -32601 error with `id` null — contrary to
the claim that no response is ever produced for an id-less request. -/
theorem C1_counterexample :
    handle_rpc [] (some (Json.obj [("jsonrpc", Json.str "2.0"), ("method", Json.str "nope")]))
      = RpcHttp.json (error_dict Json.null (-32601) "Method not found")
    ∧ handle_rpc [] (some (Json.obj [("jsonrpc", Json.str "2.0"), ("method", Json.str "nope")]))
      ≠ RpcHttp.noContent :=
  ⟨rfl, fun h => RpcHttp.noConfusion h⟩

/-- C1 (amended): for a request with no `id` key that passes every
validation step (an object with `jsonrpc` exactly `"2.0"`, a string method
present in the registry, and params absent/object/array), the dispatcher
produces no response at all, whatever the handler outcome — success,
invalid-params, or any other failure; validation failures, by contrast,
do produce an error response (see the counterexample). -/
theorem C1_valid_notification_no_response (methods : Registry)
    (fields : List (String × Json)) (m : String) (hd : Handler)
    (hid : List.lookup "id" fields = none)
    (hrpc : List.lookup "jsonrpc" fields = some (Json.str "2.0"))
    (hm : List.lookup "method" fields = some (Json.str m))
    (hreg : List.lookup m methods = some hd)
    (hp : paramsInvalid (pyGet fields "params") = false) :
    handle_single_request methods (Json.obj fields) = none
    ∧ handle_rpc methods (some (Json.obj fields)) = RpcHttp.noContent := by
  have hsingle : handle_single_request methods (Json.obj fields) = none := by
    simp only [handle_single_request, hrpc, hm, hreg, hp, hasIdKey, hid,
      Option.isSome_none, Bool.false_eq_true, if_false, if_neg]
    cases hd (pyGet fields "params") <;> simp
  exact ⟨hsingle, by simp only [handle_rpc, hsingle]⟩

/-- C1 witness: a concrete valid notification (registered method `"m"`,
no `id` key) produces no response. -/
theorem C1_witness :
    handle_single_request [("m", fun _ => HandlerOutcome.ok Json.null)]
        (Json.obj [("jsonrpc", Json.str "2.0"), ("method", Json.str "m")]) = none
    ∧ handle_rpc [("m", fun _ => HandlerOutcome.ok Json.null)]
        (some (Json.obj [("jsonrpc", Json.str "2.0"), ("method", Json.str "m")]))
      = RpcHttp.noContent :=
  C1_valid_notification_no_response _ _ "m" _ rfl rfl rfl rfl rfl

/-- C2 counterexample: a request whose `params` key is present with value
`null` — which is neither an object nor an array.  The claim prescribes a
-32602 error, but `data.get("params")` maps a JSON `null` to Python `None`,
so the `params is not None` guard skips the check and the handler runs:
the dispatcher returns a success response, not an error. -/
theorem C2_counterexample :
    handle_single_request [("m", fun _ => HandlerOutcome.ok Json.null)]
        (Json.obj [("jsonrpc", Json.str "2.0"), ("method", Json.str "m"),
                   ("params", Json.null), ("id", Json.num 1)])
      = some (result_dict Json.null (Json.num 1))
    ∧ rpcErrorCode (result_dict Json.null (Json.num 1)) = none :=
  ⟨rfl, rfl⟩

/-- C2 (amended): the error-code mapping, with the `params` clause weakened
to "present and **non-null** but neither an object nor an array" (a present
`null` params is treated as absent): an unparsable body yields -32700 with
id null; a non-object request value yields -32600; a `jsonrpc` field other
than exactly `"2.0"` yields -32600; a non-string (or missing) `method`
yields -32600; a string method absent from the registry yields -32601; a
present non-null params that is neither object nor array yields -32602
"Invalid params"; a handler raising the invalid-params condition yields
-32602 with its message, and any other handler failure -32603 with its
message (for requests carrying an `id`). -/
theorem C2_error_code_mapping :
    (∀ methods : Registry,
      handle_rpc methods none = RpcHttp.json (error_dict Json.null (-32700) "Parse error"))
    ∧ (∀ (methods : Registry) (data : Json), data.isObj = false →
        handle_single_request methods data
          = some (error_dict Json.null (-32600) "Invalid Request"))
    ∧ (∀ (methods : Registry) (fields : List (String × Json)),
        List.lookup "jsonrpc" fields ≠ some (Json.str "2.0") →
        handle_single_request methods (Json.obj fields)
          = some (error_dict (requestIdOf fields) (-32600) "Invalid Request"))
    ∧ (∀ (methods : Registry) (fields : List (String × Json)),
        List.lookup "jsonrpc" fields = some (Json.str "2.0") →
        (∀ s, List.lookup "method" fields ≠ some (Json.str s)) →
        handle_single_request methods (Json.obj fields)
          = some (error_dict (requestIdOf fields) (-32600) "Invalid Request"))
    ∧ (∀ (methods : Registry) (fields : List (String × Json)) (m : String),
        List.lookup "jsonrpc" fields = some (Json.str "2.0") →
        List.lookup "method" fields = some (Json.str m) →
        List.lookup m methods = none →
        handle_single_request methods (Json.obj fields)
          = some (error_dict (requestIdOf fields) (-32601) "Method not found"))
    ∧ (∀ (methods : Registry) (fields : List (String × Json)) (m : String)
        (hd : Handler) (v : Json),
        List.lookup "jsonrpc" fields = some (Json.str "2.0") →
        List.lookup "method" fields = some (Json.str m) →
        List.lookup m methods = some hd →
        List.lookup "params" fields = some v →
        v ≠ Json.null → (∀ l, v ≠ Json.obj l) → (∀ l, v ≠ Json.arr l) →
        handle_single_request methods (Json.obj fields)
          = some (error_dict (requestIdOf fields) (-32602) "Invalid params"))
    ∧ (∀ (methods : Registry) (fields : List (String × Json)) (m : String)
        (hd : Handler) (msg : String),
        List.lookup "jsonrpc" fields = some (Json.str "2.0") →
        List.lookup "method" fields = some (Json.str m) →
        List.lookup m methods = some hd →
        paramsInvalid (pyGet fields "params") = false →
        hd (pyGet fields "params") = HandlerOutcome.invalidParams msg →
        hasIdKey fields = true →
        handle_single_request methods (Json.obj fields)
          = some (error_dict (requestIdOf fields) (-32602) msg))
    ∧ (∀ (methods : Registry) (fields : List (String × Json)) (m : String)
        (hd : Handler) (msg : String),
        List.lookup "jsonrpc" fields = some (Json.str "2.0") →
        List.lookup "method" fields = some (Json.str m) →
        List.lookup m methods = some hd →
        paramsInvalid (pyGet fields "params") = false →
        hd (pyGet fields "params") = HandlerOutcome.fail msg →
        hasIdKey fields = true →
        handle_single_request methods (Json.obj fields)
          = some (error_dict (requestIdOf fields) (-32603) msg)) := by
  refine ⟨fun _ => rfl, ?_, ?_, ?_, ?_, ?_, ?_, ?_⟩
  · intro methods data hobj
    cases data <;> simp [Json.isObj] at hobj ⊢ <;> rfl
  · intro methods fields hne
    simp only [handle_single_request]
  · intro methods fields hrpc hnm
    simp only [handle_single_request, hrpc]
  · intro methods fields m hrpc hm hnone
    simp only [handle_single_request, hrpc, hm, hnone]
  · intro methods fields m hd v hrpc hm hreg hpv hnull hobj harr
    have hpg : pyGet fields "params" = some v := by
      simp only [pyGet, hpv]
      cases v with
      | null => exact absurd rfl hnull
      | _ => rfl
    have hpi : paramsInvalid (pyGet fields "params") = true := by
      rw [hpg]
      cases v with
      | null => exact absurd rfl hnull
      | obj l => exact absurd rfl (hobj l)
      | arr l => exact absurd rfl (harr l)
      | _ => rfl
    simp only [handle_single_request, hrpc, hm, hreg, hpi, if_true]
  · intro methods fields m hd msg hrpc hm hreg hpi hout hid
    simp only [handle_single_request, hrpc, hm, hreg, hpi, hout, hid,
      Bool.false_eq_true, if_false, if_true]
  · intro methods fields m hd msg hrpc hm hreg hpi hout hid
    simp only [handle_single_request, hrpc, hm, hreg, hpi, hout, hid,
      Bool.false_eq_true, if_false, if_true]

/-- C2 witness: each branch of the mapping exercised at a concrete input. -/
theorem C2_witness :
    handle_rpc [] none = RpcHttp.json (error_dict Json.null (-32700) "Parse error")
    ∧ handle_single_request [] (Json.str "x")
        = some (error_dict Json.null (-32600) "Invalid Request")
    ∧ handle_single_request [] (Json.obj [("id", Json.num 1)])
        = some (error_dict (requestIdOf [("id", Json.num 1)]) (-32600) "Invalid Request")
    ∧ handle_single_request [] (Json.obj [("jsonrpc", Json.str "2.0")])
        = some (error_dict (requestIdOf [("jsonrpc", Json.str "2.0")]) (-32600)
            "Invalid Request")
    ∧ handle_single_request []
        (Json.obj [("jsonrpc", Json.str "2.0"), ("method", Json.str "nope")])
        = some (error_dict
            (requestIdOf [("jsonrpc", Json.str "2.0"), ("method", Json.str "nope")])
            (-32601) "Method not found")
    ∧ handle_single_request [("m", fun _ => HandlerOutcome.ok Json.null)]
        (Json.obj [("jsonrpc", Json.str "2.0"), ("method", Json.str "m"),
                   ("params", Json.str "bad")])
        = some (error_dict
            (requestIdOf [("jsonrpc", Json.str "2.0"), ("method", Json.str "m"),
                          ("params", Json.str "bad")])
            (-32602) "Invalid params")
    ∧ handle_single_request [("m", fun _ => HandlerOutcome.invalidParams "why")]
        (Json.obj [("jsonrpc", Json.str "2.0"), ("method", Json.str "m"),
                   ("id", Json.num 1)])
        = some (error_dict
            (requestIdOf [("jsonrpc", Json.str "2.0"), ("method", Json.str "m"),
                          ("id", Json.num 1)])
            (-32602) "why")
    ∧ handle_single_request [("m", fun _ => HandlerOutcome.fail "boom")]
        (Json.obj [("jsonrpc", Json.str "2.0"), ("method", Json.str "m"),
                   ("id", Json.num 1)])
        = some (error_dict
            (requestIdOf [("jsonrpc", Json.str "2.0"), ("method", Json.str "m"),
                          ("id", Json.num 1)])
            (-32603) "boom") := by
  obtain ⟨h1, h2, h3, h4, h5, h6, h7, h8⟩ := C2_error_code_mapping
  refine ⟨h1 [], h2 [] (Json.str "x") rfl, ?_, ?_, ?_, ?_, ?_, ?_⟩
  · exact h3 [] _ (fun h => Option.noConfusion h)
  · exact h4 [] _ rfl (fun s h => Option.noConfusion h)
  · exact h5 [] _ "nope" rfl rfl rfl
  · exact h6 _ _ "m" _ (Json.str "bad") rfl rfl rfl rfl
      (fun h => Json.noConfusion h) (fun l h => Json.noConfusion h)
      (fun l h => Json.noConfusion h)
  · exact h7 _ _ "m" _ "why" rfl rfl rfl rfl rfl rfl
  · exact h8 _ _ "m" _ "boom" rfl rfl rfl rfl rfl rfl

/-- C3: a well-formed single request (valid envelope, registered method,
valid params) whose `id` key is present always yields exactly one response
object, and that response's `id` field equals the request's `id` value —
whatever the handler outcome; and an unparsable body yields the single
parse-error response carrying id null. -/
theorem C3_single_response_echoes_id :
    (∀ (methods : Registry) (fields : List (String × Json)) (m : String)
        (hd : Handler) (idv : Json),
        List.lookup "jsonrpc" fields = some (Json.str "2.0") →
        List.lookup "method" fields = some (Json.str m) →
        List.lookup m methods = some hd →
        paramsInvalid (pyGet fields "params") = false →
        List.lookup "id" fields = some idv →
        ∃ r : Json, handle_rpc methods (some (Json.obj fields)) = RpcHttp.json r
          ∧ r.isObj = true ∧ jsonField r "id" = some idv)
    ∧ (∀ methods : Registry,
        handle_rpc methods none = RpcHttp.json (error_dict Json.null (-32700) "Parse error")
        ∧ jsonField (error_dict Json.null (-32700) "Parse error") "id" = some Json.null) := by
  constructor
  · intro methods fields m hd idv hrpc hm hreg hp hid
    have hrid : requestIdOf fields = idv := by simp [requestIdOf, hid]
    have hhas : hasIdKey fields = true := by simp [hasIdKey, hid]
    cases hout : hd (pyGet fields "params") with
    | ok res =>
      have hsingle : handle_single_request methods (Json.obj fields)
          = some (result_dict res idv) := by
        simp only [handle_single_request, hrpc, hm, hreg, hp, hout, hhas, hrid,
          Bool.false_eq_true, if_false, if_true]
      exact ⟨result_dict res idv, by simp only [handle_rpc, hsingle], rfl, rfl⟩
    | invalidParams msg =>
      have hsingle : handle_single_request methods (Json.obj fields)
          = some (error_dict idv (-32602) msg) := by
        simp only [handle_single_request, hrpc, hm, hreg, hp, hout, hhas, hrid,
          Bool.false_eq_true, if_false, if_true]
      exact ⟨error_dict idv (-32602) msg, by simp only [handle_rpc, hsingle], rfl, rfl⟩
    | fail msg =>
      have hsingle : handle_single_request methods (Json.obj fields)
          = some (error_dict idv (-32603) msg) := by
        simp only [handle_single_request, hrpc, hm, hreg, hp, hout, hhas, hrid,
          Bool.false_eq_true, if_false, if_true]
      exact ⟨error_dict idv (-32603) msg, by simp only [handle_rpc, hsingle], rfl, rfl⟩
  · exact fun methods => ⟨rfl, rfl⟩

/-- C3 witness: the concrete request
`{"jsonrpc":"2.0","method":"m","id":1}` against a registry whose handler
returns `"ok"` yields exactly the success response with id 1. -/
theorem C3_witness :
    handle_rpc [("m", fun _ => HandlerOutcome.ok (Json.str "ok"))]
        (some (Json.obj [("jsonrpc", Json.str "2.0"), ("method", Json.str "m"),
                         ("id", Json.num 1)]))
      = RpcHttp.json (result_dict (Json.str "ok") (Json.num 1))
    ∧ (result_dict (Json.str "ok") (Json.num 1)).isObj = true
    ∧ jsonField (result_dict (Json.str "ok") (Json.num 1)) "id" = some (Json.num 1) := by
  obtain ⟨r, h1, h2, h3⟩ := C3_single_response_echoes_id.1
    [("m", fun _ => HandlerOutcome.ok (Json.str "ok"))]
    [("jsonrpc", Json.str "2.0"), ("method", Json.str "m"), ("id", Json.num 1)]
    "m" _ (Json.num 1) rfl rfl rfl rfl rfl
  have hcalc : handle_rpc [("m", fun _ => HandlerOutcome.ok (Json.str "ok"))]
      (some (Json.obj [("jsonrpc", Json.str "2.0"), ("method", Json.str "m"),
                       ("id", Json.num 1)]))
      = RpcHttp.json (result_dict (Json.str "ok") (Json.num 1)) := rfl
  rw [hcalc] at h1
  injection h1 with hr
  rw [← hr] at h2 h3
  exact ⟨hcalc, h2, h3⟩

/-- The imperative append loop of `handle_rpc` over a batch equals
`List.filterMap`: non-`None` per-element responses, in request order. -/
theorem collect_responses_eq_filterMap (methods : Registry) (data : List Json) :
    collect_responses methods data = data.filterMap (handle_single_request methods) := by
  suffices h : ∀ (l : List Json) (acc : List Json),
      l.foldl (fun responses req =>
        match handle_single_request methods req with
        | some response => responses ++ [response]
        | none => responses) acc
        = acc ++ l.filterMap (handle_single_request methods) by
    simpa [collect_responses] using h data []
  intro l
  induction l with
  | nil => simp
  | cons d rest ih =>
    intro acc
    cases hd : handle_single_request methods d <;>
      simp [List.filterMap_cons, hd, ih, List.foldl_cons]

/-- C4: an empty batch array yields a single -32600 error with id null; a
non-empty batch is processed element-by-element in order, collecting the
non-`None` responses in request order (`filterMap`); if every element was a
notification the dispatcher returns the 204 no-content signal, otherwise
the collected array. -/
theorem C4_batch_processing :
    (∀ methods : Registry,
        handle_rpc methods (some (Json.arr []))
          = RpcHttp.json (error_dict Json.null (-32600) "Invalid Request"))
    ∧ (∀ (methods : Registry) (elems : List Json), elems ≠ [] →
        elems.filterMap (handle_single_request methods) = [] →
        handle_rpc methods (some (Json.arr elems)) = RpcHttp.noContent)
    ∧ (∀ (methods : Registry) (elems : List Json) (rs : List Json), elems ≠ [] →
        elems.filterMap (handle_single_request methods) = rs → rs ≠ [] →
        handle_rpc methods (some (Json.arr elems)) = RpcHttp.json (Json.arr rs)) := by
  refine ⟨fun methods => rfl, ?_, ?_⟩
  · intro methods elems hne hall
    simp only [handle_rpc, collect_responses_eq_filterMap, hall, List.length_nil,
      List.length_eq_zero, hne, if_false, if_true]
  · intro methods elems rs hne hcollect hrs
    simp only [handle_rpc, collect_responses_eq_filterMap, hcollect, List.length_eq_zero,
      hne, hrs, if_false]

/-- C4 witness: a concrete two-element batch — one notification, one
request with an unknown method — returns just the one error response; a
batch of a single notification returns no content. -/
theorem C4_witness :
    handle_rpc [("m", fun _ => HandlerOutcome.ok Json.null)]
        (some (Json.arr
          [Json.obj [("jsonrpc", Json.str "2.0"), ("method", Json.str "m")],
           Json.obj [("jsonrpc", Json.str "2.0"), ("method", Json.str "nope"),
                     ("id", Json.num 2)]]))
      = RpcHttp.json (Json.arr
          [error_dict (Json.num 2) (-32601) "Method not found"])
    ∧ handle_rpc [("m", fun _ => HandlerOutcome.ok Json.null)]
        (some (Json.arr
          [Json.obj [("jsonrpc", Json.str "2.0"), ("method", Json.str "m")]]))
      = RpcHttp.noContent := by
  constructor
  · exact C4_batch_processing.2.2
      [("m", fun _ => HandlerOutcome.ok Json.null)] _ _
      (by simp) rfl (by simp)
  · exact C4_batch_processing.2.1
      [("m", fun _ => HandlerOutcome.ok Json.null)] _ (by simp) rfl

/-- C5: when the single transport attempt raises (connection refused,
timeout, DNS failure, protocol error — any `aiohttp.ClientError` or other
exception), `handle_proxy` returns a synthesized response with status 502
and the plain-text body `"Proxy error: " + str(e)`; and the proxy's answer
is a function of that one attempt's outcome alone — there is no second
attempt whose result could matter (no retry). -/
theorem C5_transport_failure_502 (remote : String) (send send2 : Transport)
    (req : HttpRequest) (msg : String)
    (hfail : send (make_outbound remote req) = UpstreamResult.clientError msg) :
    handle_proxy remote send req
      = { status := 502, headers := [], body := textBytes ("Proxy error: " ++ msg) }
    ∧ (send2 (make_outbound remote req) = send (make_outbound remote req) →
        handle_proxy remote send2 req = handle_proxy remote send req) := by
  constructor
  · simp only [handle_proxy, hfail]
  · intro hsame
    simp only [handle_proxy, hsame]

/-- C5 witness: a concrete unreachable upstream yields the 502 response. -/
theorem C5_witness :
    handle_proxy "http://u"
        (fun _ => UpstreamResult.clientError "Cannot connect to host u")
        { method := "GET", path_qs := "/foo?x=1", headers := [], body := none }
      = { status := 502, headers := [],
          body := textBytes ("Proxy error: " ++ "Cannot connect to host u") } :=
  (C5_transport_failure_502 "http://u"
    (fun _ => UpstreamResult.clientError "Cannot connect to host u")
    (fun _ => UpstreamResult.clientError "Cannot connect to host u")
    { method := "GET", path_qs := "/foo?x=1", headers := [], body := none }
    "Cannot connect to host u" rfl).1

/-- C7: the proxy target URL is the configured upstream base with every
trailing slash stripped (`rstrip("/")` at construction), concatenated with
the inbound `path_qs` verbatim; stripping removes a trailing slash and
leaves slash-free tails alone; concretely, base `http://u` with path
`/foo?x=1` targets `http://u/foo?x=1`. -/
theorem C7_target_url :
    (∀ (base : String) (req : HttpRequest),
        (make_outbound (ProxyHandler.init base) req).url = rstripSlash base ++ req.path_qs)
    ∧ (∀ s : String, rstripSlash (s ++ "/") = rstripSlash s)
    ∧ (∀ (s : String) (c : Char), s.data.getLast? = some c → c ≠ '/' →
        rstripSlash s = s)
    ∧ (make_outbound (ProxyHandler.init "http://u")
        { method := "GET", path_qs := "/foo?x=1", headers := [], body := none }).url
      = "http://u/foo?x=1" := by
  refine ⟨fun base req => rfl, ?_, ?_, rfl⟩
  · intro s
    cases s with
    | mk l =>
      show String.mk (((l ++ ['/']).reverse.dropWhile (fun c => c == '/')).reverse) = _
      simp [rstripSlash, List.dropWhile]
  · intro s c hlast hc
    cases s with
    | mk l =>
      simp only [rstripSlash]
      rcases hrev : l.reverse with _ | ⟨c', t⟩
      · have : l = [] := by simpa using congrArg List.reverse hrev
        simp [this]
      · have hc' : c' = c := by
          have h1 : l.reverse.head? = l.getLast? := List.head?_reverse l
          rw [hrev, hlast] at h1
          exact (Option.some_injective _ h1)
        have hne : (c' == '/') = false := by
          rw [hc']
          exact beq_eq_false_iff_ne.mpr hc
        simp only [List.dropWhile, hne]
        rw [← hrev, List.reverse_reverse]

/-- C7 witness: stripping leaves `"http://u"` unchanged (no trailing
slash), so the target for `/foo?x=1` is `"http://u/foo?x=1"`. -/
theorem C7_witness : rstripSlash "http://u" = "http://u" :=
  C7_target_url.2.2.1 "http://u" 'u' rfl (by decide)

/-- Every pair in `dictAssign d k v` is either an old pair of `d` or the
assigned pair `(k, v)`. -/
theorem dictAssign_mem {d : List (String × String)} {k v : String}
    {p : String × String} (hp : p ∈ dictAssign d k v) : p ∈ d ∨ p = (k, v) := by
  unfold dictAssign at hp
  split at hp
  · obtain ⟨q, hq, hpq⟩ := List.mem_map.mp hp
    by_cases hk : (q.1 == k) = true
    · right
      rw [← hpq, if_pos hk]
    · left
      rw [← hpq, if_neg hk]
      exact hq
  · rcases List.mem_append.mp hp with h | h
    · exact Or.inl h
    · exact Or.inr (by simpa using h)

/-- After `dictAssign d k v` the key `k` is bound to some value. -/
theorem dictAssign_key_mem (d : List (String × String)) (k v : String) :
    ∃ w, (k, w) ∈ dictAssign d k v := by
  unfold dictAssign
  split
  · next hany =>
    obtain ⟨q, hq, hqk⟩ := List.any_eq_true.mp hany
    exact ⟨v, List.mem_map.mpr ⟨q, hq, by rw [if_pos hqk]⟩⟩
  · exact ⟨v, List.mem_append.mpr (Or.inr (by simp))⟩

/-- `dictAssign` never drops a key that was already bound. -/
theorem dictAssign_key_mono {d : List (String × String)} {k' w : String}
    (k v : String) (h : (k', w) ∈ d) : ∃ w', (k', w') ∈ dictAssign d k v := by
  unfold dictAssign
  split
  · by_cases hk : k' = k
    · subst hk
      exact ⟨v, List.mem_map.mpr ⟨(k', w), h, by simp⟩⟩
    · refine ⟨w, List.mem_map.mpr ⟨(k', w), h, ?_⟩⟩
      have : ((k', w).1 == k) = false := beq_eq_false_iff_ne.mpr hk
      rw [if_neg (by simp [this])]
  · exact ⟨w, List.mem_append.mpr (Or.inl h)⟩

/-- Soundness of the filtered dict comprehension: every pair of the result
is one of the input items and satisfies the filter. -/
theorem dictComp_sound (keep : String × String → Bool)
    (items : List (String × String)) :
    ∀ p ∈ dictComp keep items, p ∈ items ∧ keep p = true := by
  suffices h : ∀ (l acc : List (String × String)),
      (∀ p ∈ acc, p ∈ items ∧ keep p = true) → (∀ p ∈ l, p ∈ items) →
      ∀ p ∈ l.foldl (fun d kv => if keep kv then dictAssign d kv.1 kv.2 else d) acc,
        p ∈ items ∧ keep p = true by
    intro p hp
    exact h items [] (by simp) (fun _ hq => hq) p hp
  intro l
  induction l with
  | nil =>
    intro acc hacc _ p hp
    exact hacc p hp
  | cons x rest ih =>
    intro acc hacc hl p hp
    simp only [List.foldl_cons] at hp
    by_cases hkx : keep x = true
    · rw [if_pos hkx] at hp
      refine ih _ ?_ (fun q hq => hl q (List.mem_cons_of_mem _ hq)) p hp
      intro q hq
      rcases dictAssign_mem hq with hin | heq
      · exact hacc q hin
      · have hqx : q = x := by rw [heq]
        rw [hqx]
        exact ⟨hl x (List.mem_cons_self _ _), hkx⟩
    · rw [if_neg hkx] at hp
      exact ih _ hacc (fun q hq => hl q (List.mem_cons_of_mem _ hq)) p hp

/-- Key-completeness of the filtered dict comprehension: a key occurring in
the input with a filter-accepted pair is bound in the result. -/
theorem dictComp_key_complete (keep : String × String → Bool)
    (items : List (String × String)) (k w0 : String)
    (hmem : (k, w0) ∈ items) (hkeep : keep (k, w0) = true) :
    ∃ w, (k, w) ∈ dictComp keep items := by
  suffices h : ∀ (l acc : List (String × String)),
      ((∃ w, (k, w) ∈ acc) ∨ ∃ w1, (k, w1) ∈ l ∧ keep (k, w1) = true) →
      ∃ w, (k, w) ∈ l.foldl (fun d kv => if keep kv then dictAssign d kv.1 kv.2 else d) acc by
    exact h items [] (Or.inr ⟨w0, hmem, hkeep⟩)
  intro l
  induction l with
  | nil =>
    intro acc h
    rcases h with ⟨w, hw⟩ | ⟨w1, hw1, _⟩
    · exact ⟨w, hw⟩
    · exact absurd hw1 (List.not_mem_nil _)
  | cons x rest ih =>
    intro acc h
    simp only [List.foldl_cons]
    rcases h with ⟨w, hw⟩ | ⟨w1, hw1, hk1⟩
    · by_cases hkx : keep x = true
      · rw [if_pos hkx]
        exact ih _ (Or.inl (dictAssign_key_mono x.1 x.2 hw))
      · rw [if_neg hkx]
        exact ih _ (Or.inl ⟨w, hw⟩)
    · rcases List.mem_cons.mp hw1 with heq | hrest
      · have hkx : keep x = true := by rw [← heq]; exact hk1
        rw [if_pos hkx]
        refine ih _ (Or.inl ?_)
        have hx1 : x.1 = k := by rw [← heq]
        rw [← hx1]
        exact dictAssign_key_mem acc x.1 x.2
      · by_cases hkx : keep x = true
        · rw [if_pos hkx]
          exact ih _ (Or.inr ⟨w1, hrest, hk1⟩)
        · rw [if_neg hkx]
          exact ih _ (Or.inr ⟨w1, hrest, hk1⟩)

/-- C6 counterexample: a request carrying the same header name twice (legal
in HTTP and in aiohttp's header multidict).  The outbound dict comprehension
collapses the name to its last occurrence, so the pair `("X-Dup", "1")` —
excluded by no rule — is *not* copied to the outbound request, contrary to
"all inbound headers are copied except Host and Content-Length". -/
theorem C6_counterexample :
    ("X-Dup", "1")
      ∈ (HttpRequest.mk "GET" "/" [("X-Dup", "1"), ("X-Dup", "2")] none).headers
    ∧ keepRequestHeader ("X-Dup", "1") = true
    ∧ (make_outbound "http://u"
        (HttpRequest.mk "GET" "/" [("X-Dup", "1"), ("X-Dup", "2")] none)).headers
      = [("X-Dup", "2")]
    ∧ ("X-Dup", "1") ∉ (make_outbound "http://u"
        (HttpRequest.mk "GET" "/" [("X-Dup", "1"), ("X-Dup", "2")] none)).headers :=
  ⟨by decide, by decide, rfl, by decide⟩

/-- C6 (amended): the forwarder changes nothing except the header
exclusions and the per-name collapse of repeated headers: every outbound
header pair is an inbound pair whose lowercased name is neither `host` nor
`content-length`, and every inbound header name not so excluded is
forwarded with one of its values (the last occurrence when repeated);
method and body pass through unchanged and redirects are not followed
(`allow_redirects=False`), so an upstream response — 3xx included — is
relayed with its status and body verbatim, its headers copied under the
same per-name collapse minus `content-encoding`, `content-length`, and
`transfer-encoding`. -/
theorem C6_forward_frame (remote : String) (send : Transport)
    (req : HttpRequest) (r : HttpResponse)
    (hresp : send (make_outbound remote req) = UpstreamResult.resp r) :
    (make_outbound remote req).method = req.method
    ∧ (make_outbound remote req).body = req.body
    ∧ (make_outbound remote req).allowRedirects = false
    ∧ (∀ p ∈ (make_outbound remote req).headers,
        p ∈ req.headers ∧ keepRequestHeader p = true)
    ∧ (∀ p ∈ req.headers, keepRequestHeader p = true →
        ∃ v, (p.1, v) ∈ (make_outbound remote req).headers)
    ∧ (handle_proxy remote send req).status = r.status
    ∧ (handle_proxy remote send req).body = r.body
    ∧ (∀ p ∈ (handle_proxy remote send req).headers,
        p ∈ r.headers ∧ keepResponseHeader p = true)
    ∧ (∀ p ∈ r.headers, keepResponseHeader p = true →
        ∃ v, (p.1, v) ∈ (handle_proxy remote send req).headers) := by
  have hproxy : handle_proxy remote send req
      = { status := r.status, headers := dictComp keepResponseHeader r.headers,
          body := r.body } := by
    simp only [handle_proxy, hresp]
  refine ⟨rfl, rfl, rfl, ?_, ?_, ?_, ?_, ?_, ?_⟩
  · exact dictComp_sound keepRequestHeader req.headers
  · intro p hp hkeep
    exact dictComp_key_complete keepRequestHeader req.headers p.1 p.2
      (by rw [Prod.mk.eta]; exact hp) (by rw [Prod.mk.eta]; exact hkeep)
  · rw [hproxy]
  · rw [hproxy]
  · rw [hproxy]
    exact dictComp_sound keepResponseHeader r.headers
  · intro p hp hkeep
    rw [hproxy]
    exact dictComp_key_complete keepResponseHeader r.headers p.1 p.2
      (by rw [Prod.mk.eta]; exact hp) (by rw [Prod.mk.eta]; exact hkeep)

/-- C6 witness: a concrete upstream 301 response is relayed as-is (status,
body), with its `Content-Length` header dropped and its `Location` header
kept; the outbound request kept the inbound method and body. -/
theorem C6_witness :
    (make_outbound "http://u"
      { method := "POST", path_qs := "/a", headers := [("Accept", "*/*")],
        body := some [104, 105] }).method = "POST"
    ∧ (make_outbound "http://u"
      { method := "POST", path_qs := "/a", headers := [("Accept", "*/*")],
        body := some [104, 105] }).body = some [104, 105]
    ∧ (make_outbound "http://u"
      { method := "POST", path_qs := "/a", headers := [("Accept", "*/*")],
        body := some [104, 105] }).allowRedirects = false
    ∧ (handle_proxy "http://u"
        (fun _ => UpstreamResult.resp
          { status := 301, headers := [("Location", "/x"), ("Content-Length", "0")],
            body := [] })
        { method := "POST", path_qs := "/a", headers := [("Accept", "*/*")],
          body := some [104, 105] }).status = 301
    ∧ (handle_proxy "http://u"
        (fun _ => UpstreamResult.resp
          { status := 301, headers := [("Location", "/x"), ("Content-Length", "0")],
            body := [] })
        { method := "POST", path_qs := "/a", headers := [("Accept", "*/*")],
          body := some [104, 105] }).body = [] := by
  obtain ⟨h1, h2, h3, _, _, h6, h7, _, _⟩ := C6_forward_frame "http://u"
    (fun _ => UpstreamResult.resp
      { status := 301, headers := [("Location", "/x"), ("Content-Length", "0")],
        body := [] })
    { method := "POST", path_qs := "/a", headers := [("Accept", "*/*")],
      body := some [104, 105] }
    { status := 301, headers := [("Location", "/x"), ("Content-Length", "0")],
      body := [] }
    rfl
  exact ⟨h1, h2, h3, h6, h7⟩

/-- Once `self.monitoring` is false it stays false, the write count can
grow by at most the in-flight iteration, and a loop that has exited
(`done`) never changes state again. -/
theorem monRun_stopped (evs : List MonEv) : ∀ s : MonState, s.monitoring = false →
    (monRun s evs).monitoring = false
    ∧ (monRun s evs).writes ≤ s.writes + inFlightWrites s.pc
    ∧ (s.pc = MonPC.done → monRun s evs = s) := by
  induction evs with
  | nil => exact fun s h => ⟨h, Nat.le_add_right _ _, fun _ => rfl⟩
  | cons e rest ih =>
    rintro ⟨mon, pc, w⟩ hmon
    cases hmon
    cases e with
    | stop => exact ih ⟨false, pc, w⟩ rfl
    | tick =>
      cases pc with
      | cond =>
        obtain ⟨h1, h2, h3⟩ := ih ⟨false, MonPC.done, w⟩ rfl
        refine ⟨h1, ?_, fun hdone => MonPC.noConfusion hdone⟩
        show (monRun ⟨false, MonPC.done, w⟩ rest).writes ≤ w + inFlightWrites MonPC.cond
        exact le_trans h2 (le_of_eq rfl)
      | body =>
        obtain ⟨h1, h2, h3⟩ := ih ⟨false, MonPC.sleep, w + 1⟩ rfl
        refine ⟨h1, ?_, fun hdone => MonPC.noConfusion hdone⟩
        show (monRun ⟨false, MonPC.sleep, w + 1⟩ rest).writes ≤ w + inFlightWrites MonPC.body
        exact le_trans h2 (le_of_eq rfl)
      | sleep =>
        obtain ⟨h1, h2, h3⟩ := ih ⟨false, MonPC.cond, w⟩ rfl
        exact ⟨h1, h2, fun hdone => MonPC.noConfusion hdone⟩
      | done =>
        obtain ⟨h1, h2, h3⟩ := ih ⟨false, MonPC.done, w⟩ rfl
        exact ⟨h1, h2, fun _ => h3 rfl⟩

/-- C8: in any continuation of the sampler loop after `stop()` has set
`running` to false, the write count grows by at most the iteration already
in progress (one write when the loop is mid-body, none otherwise); once the
loop next evaluates its `while` condition it exits without writing, and
after it has observed `running=false` (reached `done`) no further write is
ever performed. -/
theorem C8_stop_no_further_writes (s : MonState) (evs : List MonEv)
    (hstop : s.monitoring = false) :
    (monRun s evs).writes ≤ s.writes + inFlightWrites s.pc
    ∧ (s.pc = MonPC.cond → (monRun s (MonEv.tick :: evs)).writes = s.writes)
    ∧ (s.pc = MonPC.done → (monRun s evs).writes = s.writes) := by
  obtain ⟨mon, pc, w⟩ := s
  cases hstop
  obtain ⟨h1, h2, h3⟩ := monRun_stopped evs ⟨false, pc, w⟩ rfl
  refine ⟨h2, ?_, ?_⟩
  · rintro rfl
    obtain ⟨_, _, h3'⟩ := monRun_stopped evs ⟨false, MonPC.done, w⟩ rfl
    show (monRun ⟨false, MonPC.done, w⟩ evs).writes = w
    rw [h3' rfl]
  · rintro rfl
    rw [h3 rfl]

/-- C8 witness: from a stopped state at the condition check with 3 writes
recorded, two further ticks leave the write count at 3; from a stopped
mid-body state, any continuation performs at most one more write. -/
theorem C8_witness :
    (monRun (MonState.mk false MonPC.cond 3) [MonEv.tick, MonEv.tick]).writes = 3
    ∧ (monRun (MonState.mk false MonPC.body 0)
        [MonEv.tick, MonEv.tick, MonEv.tick, MonEv.tick]).writes
      ≤ 0 + inFlightWrites MonPC.body :=
  ⟨(C8_stop_no_further_writes (MonState.mk false MonPC.cond 3) [MonEv.tick] rfl).2.1 rfl,
   (C8_stop_no_further_writes (MonState.mk false MonPC.body 0)
      [MonEv.tick, MonEv.tick, MonEv.tick, MonEv.tick] rfl).1⟩

/-- C9: round-trip through the storage handle.  Inserting a metric sample
and then running `SELECT * FROM system_metrics` through `execute_query`
(whose engine returns the table rows in insertion order) yields a result
whose last row carries the three inserted numeric values unchanged, and
whose timestamp cell is the textual ISO-8601 rendering of the inserted
sample time — the temporal value is normalized to text before leaving the
core. -/
theorem C9_metric_roundtrip (s : Store) (t : DateTime) (cpu mem mb : Rat) :
    ∃ rows : List Json,
      execute_query
          (fun _ => Except.ok (select_all_metrics (insert_metrics t cpu mem mb s)))
          (Json.str "SELECT * FROM system_metrics")
        = Except.ok (Json.obj
            [("columns", Json.arr [Json.str "timestamp", Json.str "cpu_percent",
                Json.str "memory_percent", Json.str "memory_mb"]),
             ("rows", Json.arr rows)])
      ∧ rows.getLast? = some (Json.arr
          [Json.str t.isoformat, Json.num cpu, Json.num mem, Json.num mb]) := by
  refine ⟨(insert_metrics t cpu mem mb s).map (fun r =>
    Json.arr [Json.str r.timestamp.isoformat, Json.num r.cpu_percent,
      Json.num r.memory_percent, Json.num r.memory_mb]), ?_, ?_⟩
  · have hmap : ∀ l : Store,
        (l.map (fun r => [Scalar.ts r.timestamp, Scalar.num r.cpu_percent,
          Scalar.num r.memory_percent, Scalar.num r.memory_mb])).map
            (fun row => Json.arr (row.map (fun cell => scalarJson (convert_cell cell))))
          = l.map (fun r =>
              Json.arr [Json.str r.timestamp.isoformat, Json.num r.cpu_percent,
                Json.num r.memory_percent, Json.num r.memory_mb]) := by
      intro l
      rw [List.map_map]
      rfl
    simp only [execute_query, queryResultJson, select_all_metrics, hmap]
    rfl
  · rw [insert_metrics, List.map_append]
    simp [List.getLast?_concat]

/-- C10: the registered `query` method raises the invalid-params condition
exactly when `params` is not an object or lacks the `"sql"` key — the value
under `"sql"` is never checked to be a string.  Whatever its JSON type, the
`"sql"` value is passed to the storage handle's `execute_query`: an engine
success yields the query result, an engine failure (as a non-string sql
causes) yields an ordinary handler failure — which the dispatcher surfaces
as a -32603 error, not -32602. -/
theorem C10_sql_value_unchecked :
    (∀ (engine : Engine) (params : Option Json),
        query_method engine params
            = HandlerOutcome.invalidParams "Invalid params: 'sql' parameter is required"
          ↔ ¬ ∃ fields, params = some (Json.obj fields)
              ∧ (List.lookup "sql" fields).isSome = true)
    ∧ (∀ (engine : Engine) (fields : List (String × Json)) (v : Json) (raw : RawResult),
        List.lookup "sql" fields = some v → engine v = Except.ok raw →
        query_method engine (some (Json.obj fields))
          = HandlerOutcome.ok (queryResultJson raw))
    ∧ (∀ (engine : Engine) (fields : List (String × Json)) (v : Json) (e : String),
        List.lookup "sql" fields = some v → engine v = Except.error e →
        query_method engine (some (Json.obj fields))
          = HandlerOutcome.fail ("Query execution failed: " ++ e))
    ∧ (∀ (engine : Engine) (reqFields pFields : List (String × Json)) (v : Json)
        (e : String) (idv : Json),
        List.lookup "jsonrpc" reqFields = some (Json.str "2.0") →
        List.lookup "method" reqFields = some (Json.str "query") →
        List.lookup "params" reqFields = some (Json.obj pFields) →
        List.lookup "sql" pFields = some v →
        engine v = Except.error e →
        List.lookup "id" reqFields = some idv →
        handle_single_request [("query", query_method engine)] (Json.obj reqFields)
          = some (error_dict idv (-32603) ("Query execution failed: " ++ e))) := by
  refine ⟨?_, ?_, ?_, ?_⟩
  · intro engine params
    constructor
    · rintro hinv ⟨fields, rfl, hsql⟩
      rw [Option.isSome_iff_exists] at hsql
      obtain ⟨v, hv⟩ := hsql
      simp only [query_method, hv, execute_query] at hinv
      cases hng : engine v with
      | ok raw => rw [hng] at hinv; exact HandlerOutcome.noConfusion hinv
      | error e => rw [hng] at hinv; exact HandlerOutcome.noConfusion hinv
    · intro hno
      match params with
      | none => rfl
      | some Json.null => rfl
      | some (Json.bool b) => rfl
      | some (Json.num n) => rfl
      | some (Json.str s) => rfl
      | some (Json.arr l) => rfl
      | some (Json.obj fields) =>
        cases hsql : List.lookup "sql" fields with
        | some v =>
          exact absurd ⟨fields, rfl, by rw [hsql]; rfl⟩ hno
        | none =>
          simp only [query_method, hsql]
  · intro engine fields v raw hsql hok
    simp only [query_method, hsql, execute_query, hok]
  · intro engine fields v e hsql herr
    simp only [query_method, hsql, execute_query, herr]
  · intro engine reqFields pFields v e idv hrpc hm hpv hsql heng hid
    have hpg : pyGet reqFields "params" = some (Json.obj pFields) := by
      simp only [pyGet, hpv]
    have hpi : paramsInvalid (pyGet reqFields "params") = false := by
      rw [hpg]
      rfl
    have hout : query_method engine (pyGet reqFields "params")
        = HandlerOutcome.fail ("Query execution failed: " ++ e) := by
      rw [hpg]
      simp only [query_method, hsql, execute_query, heng]
    have hhas : hasIdKey reqFields = true := by simp [hasIdKey, hid]
    have hrid : requestIdOf reqFields = idv := by simp [requestIdOf, hid]
    simp only [handle_single_request, hrpc, hm, List.lookup, beq_self_eq_true, hpi,
      hout, hhas, hrid, Bool.false_eq_true, if_false, if_true]

/-- C10 witness: against an engine that fails on any non-string query value
(as the real storage engine does), the request
`{"jsonrpc":"2.0","method":"query","params":{"sql":7},"id":1}` is accepted
by the params check and surfaces the engine failure as -32603; a params
object with the `"sql"` key missing raises the invalid-params condition. -/
theorem C10_witness :
    handle_single_request
        [("query", query_method (fun q => match q with
          | Json.str _ => Except.ok (RawResult.mk ["ok"] [])
          | _ => Except.error "Conversion Error"))]
        (Json.obj [("jsonrpc", Json.str "2.0"), ("method", Json.str "query"),
                   ("params", Json.obj [("sql", Json.num 7)]), ("id", Json.num 1)])
      = some (error_dict (Json.num 1) (-32603)
          ("Query execution failed: " ++ "Conversion Error"))
    ∧ query_method (fun q => match q with
          | Json.str _ => Except.ok (RawResult.mk ["ok"] [])
          | _ => Except.error "Conversion Error")
        (some (Json.obj [("other", Json.num 1)]))
      = HandlerOutcome.invalidParams "Invalid params: 'sql' parameter is required" := by
  constructor
  · exact C10_sql_value_unchecked.2.2.2
      (fun q => match q with
        | Json.str _ => Except.ok (RawResult.mk ["ok"] [])
        | _ => Except.error "Conversion Error")
      [("jsonrpc", Json.str "2.0"), ("method", Json.str "query"),
       ("params", Json.obj [("sql", Json.num 7)]), ("id", Json.num 1)]
      [("sql", Json.num 7)] (Json.num 7) "Conversion Error" (Json.num 1)
      rfl rfl rfl rfl rfl rfl
  · exact (C10_sql_value_unchecked.1
      (fun q => match q with
        | Json.str _ => Except.ok (RawResult.mk ["ok"] [])
        | _ => Except.error "Conversion Error")
      (some (Json.obj [("other", Json.num 1)]))).mpr
      (by rintro ⟨fields, hf, hsql⟩
          injection hf with hf'
          injection hf' with hf''
          rw [← hf''] at hsql
          exact Bool.noConfusion hsql)
